import Mathlib

/-!
Verification of the E-Reader storage gateway (`aws-backend/main.go`).

The two request handlers `handleUpload` and `showLibrary` are shallowly
embedded as pure functions.  Backend interactions (S3 `Upload` and
`ListObjectsV2`) are reified: each handler returns, next to its HTTP
result, the list of backend calls it performed, so that "zero backend
writes" and "the store is never invoked" become statements about that
list.  The backend's answer (success or failure, and the listed keys) is
passed in as a parameter describing how the backend would respond.
-/

/-- The process-wide storage namespace (bucket) name, `bucketName` in `main.go`. -/
def bucketName : String := "books-uploaded"

/-- The fixed URL root of the storage namespace, as concatenated in `main.go`:
`"https://" + bucketName + ".s3.amazonaws.com/"`. -/
def namespaceRoot : String := "https://" ++ bucketName ++ ".s3.amazonaws.com/"

/-- Public object URL for a stored key (`fileURL` in `handleUpload`,
`pdfURL` in `showLibrary`): `"https://" + bucketName + ".s3.amazonaws.com/" + key`. -/
def objectURL (key : String) : String :=
  "https://" ++ bucketName ++ ".s3.amazonaws.com/" ++ key

/-- Thumbnail URL for a stored key (`thumbnailURL` in `showLibrary`):
`"https://" + bucketName + ".s3.amazonaws.com/thumbnails/" + key + ".jpg"`. -/
def thumbnailURL (key : String) : String :=
  "https://" ++ bucketName ++ ".s3.amazonaws.com/thumbnails/" ++ key ++ ".jpg"

/-- Storage-key construction from `handleUpload`: the folder gets a "/"
appended when it does not already end in one (`s3Folder[len(s3Folder)-1:] != "/"`
in Go compares the final byte, which for valid UTF-8 equals "/" exactly when the
final character is '/'), then the filename is concatenated (`s3Key := s3Folder + file.Filename`). -/
def buildKey (folder filename : String) : String :=
  (if folder.takeRight 1 ≠ "/" then folder ++ "/" else folder) ++ filename

/-- Listing prefix from `showLibrary`: `"users/" + userId + "/"`. -/
def buildListPfx (ownerId : String) : String :=
  "users/" ++ ownerId ++ "/"

/-- One invocation of the uploader's store operation: the `PutObjectInput`
fields that `handleUpload` fills in (`Key`, `ContentType`, `ACL`). -/
structure StoreCall where
  key : String
  contentType : String
  acl : String
  deriving DecidableEq

/-- The parts of an inbound upload request that `handleUpload` reads, plus the
outcome the environment would give to `file.Open()` and `uploader.Upload`.
`filePart` is `some f` when the multipart form has a "pdf" part whose
`Filename` is `f`, and `none` when `c.FormFile("pdf")` errors (no file part).
`fileContentType` is the content type the caller declared for the uploaded
file; the handler never reads it.  `s3Path` is `c.PostForm("s3_path")`, which
is `""` when the field is empty or absent. -/
structure UploadRequest where
  filePart : Option String
  fileContentType : String
  s3Path : String
  openOk : Bool
  uploadOk : Bool
  deriving DecidableEq

/-- The handler's JSON result: an error payload `{"error": message}` sent with
an HTTP status, or the success payload `{"pdf_url": ..., "pdf_name": ...}`. -/
inductive IngestResult where
  | err (status : Nat) (message : String)
  | ok (pdfUrl : String) (pdfName : String)
  deriving DecidableEq

/-- `handleUpload` from `main.go`.  Returns the JSON result together with the
list of store calls issued to the uploader (the call is recorded whether the
upload then succeeds or fails; an empty list means the uploader was never
invoked). -/
def handleUpload (req : UploadRequest) : IngestResult × List StoreCall :=
  match req.filePart with
  | none => (IngestResult.err 400 "Failed to upload file", [])
  | some filename =>
    if req.s3Path = "" then
      (IngestResult.err 400 "Missing s3_path", [])
    else if req.openOk then
      let s3Key := buildKey req.s3Path filename
      let call : StoreCall :=
        { key := s3Key, contentType := "application/pdf", acl := "public-read" }
      if req.uploadOk then
        (IngestResult.ok (objectURL s3Key) filename, [call])
      else
        (IngestResult.err 500 "Failed to upload file", [call])
    else
      (IngestResult.err 400 "Failed to open file", [])

/-- One entry of the library listing, as built in `showLibrary`'s loop. -/
structure LibraryEntry where
  url : String
  thumbnail : String
  name : String
  deriving DecidableEq

/-- `showLibrary`'s JSON result: an error payload or `{"books": [...]}`. -/
inductive ListResult where
  | err (status : Nat) (message : String)
  | ok (books : List LibraryEntry)
  deriving DecidableEq

/-- `showLibrary` from `main.go`.  `backend` is how `ListObjectsV2` would
respond: `Except.error ()` for a failed call, `Except.ok keys` for a
successful one returning `keys` (in backend order).  The second component
collects the prefixes of the `ListObjectsV2` calls actually issued, so an
empty list means the backend was never queried. -/
def showLibrary (userId : String) (backend : Except Unit (List String)) :
    ListResult × List String :=
  if userId = "" then
    (ListResult.err 400 "Missing userId", [])
  else
    let pfx := buildListPfx userId
    match backend with
    | Except.error _ => (ListResult.err 500 "Failed to load library", [pfx])
    | Except.ok keys =>
      (ListResult.ok (keys.map fun key =>
        { url := objectURL key, thumbnail := thumbnailURL key, name := key }), [pfx])

/-- The object URL is the fixed namespace root followed by the key. -/
theorem objectURL_eq (key : String) : objectURL key = namespaceRoot ++ key := rfl

/-- The thumbnail URL is the fixed namespace root followed by
`thumbnails/<key>.jpg`. -/
theorem thumbnailURL_eq (key : String) :
    thumbnailURL key = namespaceRoot ++ "thumbnails/" ++ key ++ ".jpg" := rfl

/-- C1: for a non-empty folder, `buildKey` yields `folder ++ "/" ++ filename`
when the folder does not end in the separator, and exactly `folder ++ filename`
(no second separator) when it already does. -/
theorem buildKey_normalization (folder filename : String)
    (hf : folder ≠ "") (hfn : filename ≠ "") :
    (folder.takeRight 1 ≠ "/" → buildKey folder filename = folder ++ "/" ++ filename) ∧
    (folder.takeRight 1 = "/" → buildKey folder filename = folder ++ filename) := by
  constructor
  · intro h
    simp [buildKey, h]
  · intro h
    simp [buildKey, h]

/-- Witness for C1 at folder "users/42" (no trailing separator) and
folder "users/42/" (trailing separator), filename "book.pdf". -/
theorem buildKey_normalization_witness :
    buildKey "users/42" "book.pdf" = "users/42" ++ "/" ++ "book.pdf" ∧
    buildKey "users/42/" "book.pdf" = "users/42/" ++ "book.pdf" :=
  ⟨(buildKey_normalization "users/42" "book.pdf" (by decide) (by decide)).1 (by decide),
   (buildKey_normalization "users/42/" "book.pdf" (by decide) (by decide)).2 (by decide)⟩

/-- C2: for every non-empty ownerId, the prefix `showLibrary` passes to the
backend's list call is exactly `"users/" ++ ownerId ++ "/"`, whatever the
backend then answers. -/
theorem showLibrary_query_pfx (userId : String) (backend : Except Unit (List String))
    (h : userId ≠ "") :
    (showLibrary userId backend).2 = ["users/" ++ userId ++ "/"] := by
  cases backend <;> simp [showLibrary, buildListPfx, h]

/-- Witness for C2 at ownerId "42" with a successful empty backend answer. -/
theorem showLibrary_query_pfx_witness :
    (showLibrary "42" (Except.ok [])).2 = ["users/" ++ "42" ++ "/"] :=
  showLibrary_query_pfx "42" (Except.ok []) (by decide)

/-- C3: when the backend returns `keys`, the listing succeeds with exactly one
entry per key, in backend order, each entry's url/thumbnail derived from its
own key and its name equal to the key; zero keys give a successful empty
list, not an error. -/
theorem showLibrary_result_entries (userId : String) (keys : List String)
    (h : userId ≠ "") :
    (showLibrary userId (Except.ok keys)).1
      = ListResult.ok (keys.map fun k =>
          { url := objectURL k, thumbnail := thumbnailURL k, name := k }) ∧
    (∀ books, (showLibrary userId (Except.ok keys)).1 = ListResult.ok books →
        books.length = keys.length) ∧
    (keys = [] → (showLibrary userId (Except.ok keys)).1 = ListResult.ok []) := by
  have hmain : (showLibrary userId (Except.ok keys)).1
      = ListResult.ok (keys.map fun k =>
          ({ url := objectURL k, thumbnail := thumbnailURL k, name := k } : LibraryEntry)) := by
    simp [showLibrary, h]
  refine ⟨hmain, ?_, ?_⟩
  · intro books hb
    rw [hmain] at hb
    injection hb with hb
    subst hb
    simp
  · intro hk
    subst hk
    simpa using hmain

/-- Witness for C3 at ownerId "42" and a one-key backend answer. -/
theorem showLibrary_result_entries_witness :
    (showLibrary "42" (Except.ok ["users/42/book.pdf"])).1
      = ListResult.ok (["users/42/book.pdf"].map fun k =>
          { url := objectURL k, thumbnail := thumbnailURL k, name := k }) :=
  (showLibrary_result_entries "42" ["users/42/book.pdf"] (by decide)).1

/-- C4: when the "pdf" part is present with filename `f`, the folder and `f`
are non-empty, the file opens, and the backend accepts the write, the success
payload's `pdf_url` is the fixed namespace root followed by the computed key
and its `pdf_name` is the original filename unchanged. -/
theorem ingest_success_payload (req : UploadRequest) (f : String)
    (hp : req.filePart = some f) (hfo : req.s3Path ≠ "") (hfn : f ≠ "")
    (ho : req.openOk = true) (hu : req.uploadOk = true) :
    (handleUpload req).1
      = IngestResult.ok (namespaceRoot ++ buildKey req.s3Path f) f := by
  simp [handleUpload, hp, hfo, ho, hu, objectURL_eq]

/-- Witness for C4 at folder "users/42", filename "book.pdf", open and
upload both succeeding. -/
theorem ingest_success_payload_witness :
    (handleUpload ⟨some "book.pdf", "application/pdf", "users/42", true, true⟩).1
      = IngestResult.ok (namespaceRoot ++ buildKey "users/42" "book.pdf") "book.pdf" :=
  ingest_success_payload ⟨some "book.pdf", "application/pdf", "users/42", true, true⟩
    "book.pdf" rfl (by decide) (by decide) rfl rfl

/-- C5 counterexample: a request whose folder is empty AND whose "pdf" part is
missing fails with "Failed to upload file", not with the MissingFolder message
"Missing s3_path", because `handleUpload` checks the file part first. -/
theorem ingest_empty_folder_cex :
    handleUpload ⟨none, "application/pdf", "", true, true⟩
      = (IngestResult.err 400 "Failed to upload file", []) ∧
    IngestResult.err 400 "Failed to upload file"
      ≠ IngestResult.err 400 "Missing s3_path" := by
  decide

/-- C5 (amended): every request with an empty (or absent) folder performs zero
backend writes, and when the "pdf" part is present it fails with the
MissingFolder error "Missing s3_path". -/
theorem ingest_empty_folder_amended (req : UploadRequest) (h : req.s3Path = "") :
    (handleUpload req).2 = [] ∧
    (∀ f, req.filePart = some f →
      (handleUpload req).1 = IngestResult.err 400 "Missing s3_path") := by
  cases hp : req.filePart with
  | none => simp [handleUpload, hp]
  | some f => simp [handleUpload, hp, h]

/-- Witness for C5 (amended) at a request with a file part and empty folder. -/
theorem ingest_empty_folder_amended_witness :
    (handleUpload ⟨some "book.pdf", "application/pdf", "", true, true⟩).2 = [] ∧
    (handleUpload ⟨some "book.pdf", "application/pdf", "", true, true⟩).1
      = IngestResult.err 400 "Missing s3_path" := by
  have h := ingest_empty_folder_amended
    ⟨some "book.pdf", "application/pdf", "", true, true⟩ rfl
  exact ⟨h.1, h.2 "book.pdf" rfl⟩

/-- C6: a List call with empty ownerId fails with the MissingOwner error
"Missing userId" and issues zero backend list calls, whatever the backend
would have answered. -/
theorem showLibrary_missing_owner (backend : Except Unit (List String)) :
    showLibrary "" backend = (ListResult.err 400 "Missing userId", []) := by
  simp [showLibrary]

/-- C7 counterexample: a request with a present "pdf" part whose filename is
empty is never rejected: the backend write is invoked (with key "docs/") and
the call succeeds, so the filename is not validated and no MissingFile error
exists. -/
theorem ingest_empty_filename_cex :
    handleUpload ⟨some "", "application/pdf", "docs", true, true⟩
      = (IngestResult.ok (objectURL "docs/") "",
         [{ key := "docs/", contentType := "application/pdf", acl := "public-read" }]) := by
  decide

/-- C7 (amended): with the "pdf" part present, the folder is validated
non-empty before any backend interaction (MissingFolder error "Missing s3_path"
and zero store calls on an empty folder), but the filename is not validated:
any filename, the empty one included, reaches the backend write. -/
theorem ingest_folder_checked_filename_unchecked (req : UploadRequest) (f : String)
    (hp : req.filePart = some f) :
    (req.s3Path = "" →
      (handleUpload req).1 = IngestResult.err 400 "Missing s3_path" ∧
      (handleUpload req).2 = []) ∧
    (req.s3Path ≠ "" → req.openOk = true →
      (handleUpload req).2 =
        [{ key := buildKey req.s3Path f, contentType := "application/pdf",
           acl := "public-read" }]) := by
  constructor
  · intro h
    simp [handleUpload, hp, h]
  · intro h ho
    cases hu : req.uploadOk <;> simp [handleUpload, hp, h, ho, hu]

/-- Witness for C7 (amended) at a request with empty filename and folder
"docs": the store call is issued. -/
theorem ingest_folder_checked_filename_unchecked_witness :
    (handleUpload ⟨some "", "text/plain", "docs", true, true⟩).2
      = [{ key := buildKey "docs" "", contentType := "application/pdf",
           acl := "public-read" }] :=
  (ingest_folder_checked_filename_unchecked
    ⟨some "", "text/plain", "docs", true, true⟩ "" rfl).2 (by decide) rfl

/-- C8: the URL policy is pure (both URLs are functions of the key alone), the
object URL is the namespace root followed by the key, and the thumbnail URL is
the same namespace root followed by `thumbnails/<key>.jpg`. -/
theorem urlPolicy_thumbnail_relation (key : String) :
    objectURL key = namespaceRoot ++ key ∧
    thumbnailURL key = namespaceRoot ++ "thumbnails/" ++ key ++ ".jpg" :=
  ⟨objectURL_eq key, thumbnailURL_eq key⟩

/-- C9: every store call that `handleUpload` issues carries content type
"application/pdf" and access policy "public-read", whatever the request — in
particular whatever content type the caller declared for the file. -/
theorem ingest_store_call_metadata (req : UploadRequest) (call : StoreCall)
    (h : call ∈ (handleUpload req).2) :
    call.contentType = "application/pdf" ∧ call.acl = "public-read" := by
  obtain ⟨fp, ct, sp, op, up⟩ := req
  cases fp with
  | none => simp [handleUpload] at h
  | some f =>
    by_cases hs : sp = ""
    · simp [handleUpload, hs] at h
    · cases op with
      | false => simp [handleUpload, hs] at h
      | true =>
        cases up with
        | false =>
          simp [handleUpload, hs] at h
          subst h
          exact ⟨rfl, rfl⟩
        | true =>
          simp [handleUpload, hs] at h
          subst h
          exact ⟨rfl, rfl⟩

/-- Witness for C9 at a request declaring content type "text/plain": the
recorded store call still carries "application/pdf" and "public-read". -/
theorem ingest_store_call_metadata_witness :
    ({ key := "docs/a.pdf", contentType := "application/pdf",
       acl := "public-read" } : StoreCall).contentType = "application/pdf" ∧
    ({ key := "docs/a.pdf", contentType := "application/pdf",
       acl := "public-read" } : StoreCall).acl = "public-read" :=
  ingest_store_call_metadata ⟨some "a.pdf", "text/plain", "docs", true, true⟩
    { key := "docs/a.pdf", contentType := "application/pdf", acl := "public-read" }
    (by decide)

/-- C10: the message "Failed to upload file" is produced both by a request with
no "pdf" part (which issues zero store calls) and by a request whose backend
store fails (which issues one), so the two causes share one error message. -/
theorem upload_error_message_collision :
    (handleUpload ⟨none, "application/pdf", "users/1", true, true⟩).1
      = IngestResult.err 400 "Failed to upload file" ∧
    (handleUpload ⟨some "a.pdf", "application/pdf", "users/1", true, false⟩).1
      = IngestResult.err 500 "Failed to upload file" ∧
    (handleUpload ⟨none, "application/pdf", "users/1", true, true⟩).2 = [] ∧
    (handleUpload ⟨some "a.pdf", "application/pdf", "users/1", true, false⟩).2 ≠ [] := by
  decide
